import Mathlib

/-!
Shallow embedding of the BlackboxAPI chat-session store and request pipeline
(src/blackboxapi/models.py, database.py, client.py), together with proofs of
the behavioural claims about it.

Modelling conventions:
* Python objects become Lean structures; mutation becomes explicit state
  passing (`DictDatabase` values are threaded through operations).
* `uuid.uuid4()` ids and `datetime.utcnow()` timestamps are environment
  dependent; fields derived from them (`Message.id`, `Message.timestamp`,
  `Chat.created_at`, the `created_at`/`last_updated` metadata timestamps) are
  omitted from the model.  No claim depends on them.
* Python `dict`s become association lists (`List (String × _)`) with
  first-match lookup; insertion replaces the first matching key.
* Exceptions become `Except`; network and filesystem I/O is abstracted by an
  explicit outcome parameter (`FetchOutcome`).
-/

namespace BlackboxAPI

/-- Python truthiness of an `Optional[str]`: `None` and `""` are falsy. -/
def pyTruthy : Option String → Bool
  | none => false
  | some s => s ≠ ""

/-! ### models.py: Message -/

/-- Embeds `Message` (models.py:10-31).  `id`/`timestamp` (uuid / utcnow) omitted. -/
structure Message where
  content : String
  role : String
  image : Option String := none
deriving DecidableEq, Repr

/-- The `data` sub-dict produced by `Message.to_dict` for image messages
(models.py:44-48). -/
structure ImageData where
  fileText : String
  imageBase64 : String
  title : Option String
deriving DecidableEq, Repr

/-- Wire form of a message (models.py:33-55); the uuid `id` key is omitted. -/
structure MessageDict where
  content : String
  role : String
  data : Option ImageData
deriving DecidableEq, Repr

/-- Embeds `Message.to_dict` (models.py:33-55): the `data` block is attached only when
`self.image` is truthy. -/
def Message.toDict (m : Message) : MessageDict :=
  if pyTruthy m.image then
    { content := m.content, role := m.role,
      data := some { fileText := "", imageBase64 := m.image.getD "", title := none } }
  else
    { content := m.content, role := m.role, data := none }

/-! ### models.py: AgentMode and Model -/

/-- Embeds `AgentMode` (models.py:57-70). -/
structure AgentMode where
  mode : Bool
  id : String
  name : String
  description : Option String := none
deriving DecidableEq, Repr

/-- Embeds `Model` (models.py:87-100). -/
structure Model where
  name : String
  id : String
  max_tokens : Nat := 4096
  supports_streaming : Bool := false
deriving DecidableEq, Repr

/-- Embeds `BLACKBOX` default model (models.py:221-226). -/
def BLACKBOX : Model :=
  { name := "Blackbox AI", id := "blackbox-ai", max_tokens := 2048 }

/-- Embeds `CLAUDE` model (models.py:207-212). -/
def CLAUDE : Model :=
  { name := "Claude", id := "claude-sonnet-3.5", max_tokens := 8192 }

/-! ### models.py: Chat -/

/-- Embeds `Chat.MAX_MESSAGES` (models.py:129). -/
def MAX_MESSAGES : Nat := 25

/-- Embeds `Chat` (models.py:115-146).  The `database` reference is modelled by
explicit state passing; `created_at` and the per-chat `metadata` dict
(timestamps plus a `message_count` that `Chat` itself never updates) are
omitted. -/
structure Chat where
  chat_id : String
  messages : List Message
deriving DecidableEq, Repr

/-- Embeds `deque(maxlen=25).append` (models.py:139,151): appending to a full deque
silently evicts from the left. -/
def dequeAppend (l : List Message) (m : Message) : List Message :=
  let l' := l ++ [m]
  if MAX_MESSAGES < l'.length then l'.drop (l'.length - MAX_MESSAGES) else l'

/-- The last `MAX_MESSAGES` elements of a list (whole list when shorter). -/
def truncMax (l : List α) : List α := l.drop (l.length - MAX_MESSAGES)

/-- The message-constructing and deque-appending part of `Chat.add_message`
(models.py:150-151), common to the sync and async variants. -/
def chatAppend (c : Chat) (content role : String) (image : Option String) : Chat :=
  { c with messages := dequeAppend c.messages { content := content, role := role, image := image } }

/-- Embeds `Chat.get_messages` (models.py:162-164).  `list(self.messages)` is a
snapshot copy; in this value-level model it is simply the current sequence. -/
def getMessages (c : Chat) : List Message := c.messages

/-- The effective `Chat.get_messages_async` (models.py:182-184, the second of
two definitions of that name, which shadows the first at models.py:166-168):
it returns `self.messages` itself — the live deque, not a `list(...)` copy. -/
def getMessagesAsyncEffective (c : Chat) : List Message := c.messages

/-! ### database.py: DictDatabase -/

/-- Embeds `DatabaseError` (exceptions.py:5-7); the formatted message string is
omitted. -/
inductive DBError where
  | databaseError
deriving DecidableEq, Repr

/-- A `DictDatabase.metadata` entry (database.py:106-110, 123-126);
`created_at`/`last_updated` timestamps omitted. -/
structure ChatMeta where
  message_count : Nat
deriving DecidableEq, Repr

/-- Embeds `DictDatabase` (database.py:83-98): two dicts, chats and metadata. -/
structure DictDatabase where
  chats : List (String × Chat)
  metadata : List (String × ChatMeta)
deriving DecidableEq, Repr

/-- First-match lookup in an association list (Python `dict` access). -/
def getk : List (String × α) → String → Option α
  | [], _ => none
  | (k', v) :: rest, k => if k' = k then some v else getk rest k

/-- Key update in an association list (Python `d[k] = v`). -/
def setk : List (String × α) → String → α → List (String × α)
  | [], k, v => [(k, v)]
  | (k', v') :: rest, k, v =>
    if k' = k then (k, v) :: rest else (k', v') :: setk rest k v

/-- Key removal (Python `d.pop(k, None)`). -/
def delk (l : List (String × α)) (k : String) : List (String × α) :=
  l.filter (fun p => decide (p.1 ≠ k))

/-- Embeds `DictDatabase.get_or_create_chat` (database.py:100-114): on a missing id it
registers a fresh `Chat` plus a metadata entry, then returns the stored chat. -/
def get_or_create_chat (db : DictDatabase) (chat_id : String) : Chat × DictDatabase :=
  match getk db.chats chat_id with
  | some c => (c, db)
  | none =>
    let c : Chat := { chat_id := chat_id, messages := [] }
    (c, { chats := setk db.chats chat_id c,
          metadata := setk db.metadata chat_id { message_count := 0 } })

/-- Embeds `DictDatabase.save_chat` (database.py:116-130): stores the chat under its
own id, then updates the *existing* metadata entry; a missing metadata entry is
a `KeyError`, caught and re-raised as `DatabaseError`.  (Python mutates
`chats` before the failing metadata access; no claim depends on that
partially-updated state, so the error case here returns only the error.) -/
def save_chat (db : DictDatabase) (c : Chat) : Except DBError DictDatabase :=
  let chats' := setk db.chats c.chat_id c
  match getk db.metadata c.chat_id with
  | none => .error .databaseError
  | some _ =>
    .ok { chats := chats',
          metadata := setk db.metadata c.chat_id { message_count := (getMessages c).length } }

/-- Embeds `DictDatabase.delete_chat` (database.py:132-140): `dict.pop(key, None)`
twice; the `except` branch is unreachable, so the operation is total. -/
def delete_chat (db : DictDatabase) (chat_id : String) : DictDatabase :=
  { chats := delk db.chats chat_id, metadata := delk db.metadata chat_id }

/-- Embeds `Chat.add_message` (models.py:148-153) for a chat whose `database` is set:
append to the deque, then `database.save_chat(self)`. -/
def addMessageDb (db : DictDatabase) (c : Chat) (content role : String)
    (image : Option String) : Except DBError (Chat × DictDatabase) :=
  let c' := chatAppend c content role image
  (save_chat db c').map (fun db' => (c', db'))

/-- Embeds `Chat.add_message` (models.py:148-153) when `self.database` is falsy: the
persistence call is skipped. -/
def addMessageNoDb (c : Chat) (content role : String) (image : Option String) : Chat :=
  chatAppend c content role image

/-- A sequence of `add_message(content, role)` calls on one chat (no images),
threading the database. -/
def addAll : DictDatabase → Chat → List (String × String) →
    Except DBError (Chat × DictDatabase)
  | db, c, [] => .ok (c, db)
  | db, c, (content, role) :: rest =>
    match addMessageDb db c content role none with
    | .error e => .error e
    | .ok (c', db') => addAll db' c' rest

/-- Maps a `(content, role)` pair to the message `add_message` constructs from it. -/
def mkMsg (p : String × String) : Message := { content := p.1, role := p.2 }

/-- Well-formedness of a `DictDatabase` as maintained by its own operations:
every stored chat is keyed by its `chat_id` and has a metadata entry. -/
def wfDb (db : DictDatabase) : Bool :=
  db.chats.all (fun p => p.2.chat_id == p.1 && (getk db.metadata p.1).isSome)

/-! ### models.py: the duplicated async Chat methods

The class body defines `add_message_async`, `get_messages_async` and
`clear_history_async` twice; Python binds a class attribute to the *last*
definition executed, so the later, reduced variants (models.py:182-197) shadow
the earlier, image-capable ones (models.py:155-180). -/

/-- Embeds `TypeError` raised by CPython when a call passes an argument the effective
signature does not accept, alongside errors the body itself raises. -/
inductive PyCallError where
  | typeError
  | dbError (e : DBError)
deriving DecidableEq, Repr

/-- The shadowed first definition of `add_message_async` (models.py:155-160):
identical to `add_message` including the optional `image`. -/
def addMessageAsyncFirst (db : DictDatabase) (c : Chat) (content role : String)
    (image : Option String) : Except DBError (Chat × DictDatabase) :=
  let c' := chatAppend c content role image
  (save_chat db c').map (fun db' => (c', db'))

/-- The effective `add_message_async` (models.py:186-191, the later duplicate):
its signature is `(content, role)` only, so the constructed message never
carries an image. -/
def addMessageAsyncEffective (db : DictDatabase) (c : Chat) (content role : String) :
    Except DBError (Chat × DictDatabase) :=
  let c' := chatAppend c content role none
  (save_chat db c').map (fun db' => (c', db'))

/-- Calling `chat.add_message_async(content, role, image)`: the effective
method (models.py:186) takes no `image` parameter, so passing one is a
`TypeError` before the body runs. -/
def addMessageAsyncCall (db : DictDatabase) (c : Chat) (content role : String)
    (image : Option String) : Except PyCallError (Chat × DictDatabase) :=
  match image with
  | some _ => .error .typeError
  | none =>
    match addMessageAsyncEffective db c content role with
    | .error e => .error (.dbError e)
    | .ok r => .ok r

/-! ### client.py: response normalization -/

/-- First index at which `pat` occurs as a contiguous substring, if any. -/
def findSub (pat : List Char) : List Char → Option Nat
  | [] => none
  | c :: rest =>
    if pat.isPrefixOf (c :: rest) then some 0 else (findSub pat rest).map (· + 1)

/-- The literal citation-block marker matched by the first regex in
`_process_response` (client.py:292). -/
def marker : List Char := "$~~~$".data

/-- Fuel-indexed core of the marker-pair deletion
`re.sub(r'\$~~~\$.*?\$~~~\$', '', text, flags=re.DOTALL)` (client.py:292):
leftmost-first, the non-greedy body ends at the next marker occurrence, and
scanning resumes after the deleted span.  One unit of fuel per deleted span;
each span is at least 10 characters, so length-many units always suffice. -/
def stripMarkersF : Nat → List Char → List Char
  | 0, l => l
  | fuel + 1, l =>
    match findSub marker l with
    | none => l
    | some p =>
      let rest := l.drop (p + 5)
      match findSub marker rest with
      | none => l
      | some q => l.take p ++ stripMarkersF fuel (rest.drop (q + 5))

/-- Marker-pair deletion (client.py:292 and client.py:536). -/
def stripMarkers (l : List Char) : List Char := stripMarkersF l.length l

/-- The literal deleted (together with one newline and an optional second) by
the promotional-line regex of the sync `_process_response` (client.py:293). -/
def promoSync : List Char :=
  "Generated by BLACKBOX.AI, try unlimited chat https://www.blackbox.ai\n".data

/-- Fuel-indexed core of
`re.sub(r'Generated by BLACKBOX\.AI, try unlimited chat https://www\.blackbox\.ai\n\n?', '', text)`
(client.py:293): delete each occurrence of the literal (which ends in a
newline) plus a greedy optional second newline. -/
def stripPromoSyncF : Nat → List Char → List Char
  | 0, l => l
  | fuel + 1, l =>
    match findSub promoSync l with
    | none => l
    | some p =>
      let rest := l.drop (p + promoSync.length)
      let rest' := match rest with
        | '\n' :: r => r
        | r => r
      l.take p ++ stripPromoSyncF fuel rest'

/-- Promotional-line deletion of the sync path (client.py:293). -/
def stripPromoSync (l : List Char) : List Char := stripPromoSyncF l.length l

/-- The literal prefix of the async promotional-line regex (client.py:537). -/
def promoAsyncLit : List Char := "Generated by BLACKBOX.AI".data

/-- Fuel-indexed core of
`re.sub(r'Generated by BLACKBOX\.AI.*?\n\n?', '', response_text)`
(client.py:537, no DOTALL): after the literal, the non-greedy `.*?` cannot
cross a newline, so the match extends exactly to the first following newline,
plus a greedy optional second newline.  With no newline after the literal
there is no match there nor at any later occurrence. -/
def stripPromoAsyncF : Nat → List Char → List Char
  | 0, l => l
  | fuel + 1, l =>
    match findSub promoAsyncLit l with
    | none => l
    | some p =>
      let after := l.drop (p + promoAsyncLit.length)
      match findSub ['\n'] after with
      | none => l
      | some j =>
        let rest := after.drop (j + 1)
        let rest' := match rest with
          | '\n' :: r => r
          | r => r
        l.take p ++ stripPromoAsyncF fuel rest'

/-- Promotional-line deletion of the async path (client.py:537). -/
def stripPromoAsync (l : List Char) : List Char := stripPromoAsyncF l.length l

/-- Embeds `AIClient._process_response` (client.py:281-294): strip marker pairs, then
the promotional line. -/
def processResponse (s : String) : String :=
  ⟨stripPromoSync (stripMarkers s.data)⟩

/-- The whitespace set of Python `str.strip()` (ASCII; exotic Unicode
whitespace does not occur in any input considered here). -/
def pyWhitespace (c : Char) : Bool :=
  c.toNat == 32 || c.toNat == 9 || c.toNat == 10 || c.toNat == 13 ||
    c.toNat == 11 || c.toNat == 12

/-- Python `str.strip()`. -/
def pyStrip (l : List Char) : List Char :=
  ((l.dropWhile pyWhitespace).reverse.dropWhile pyWhitespace).reverse

/-- Python `str.isprintable()` restricted to the ASCII range (Unicode category
nuances outside ASCII never arise in the claims): true except for control
characters. -/
def pyIsPrintable (c : Char) : Bool := 32 ≤ c.toNat && c.toNat != 127

/-- The sync path's character filter
`''.join(char for char in response_text if char.isprintable() or char == '\n')`
(client.py:471-474). -/
def printableFilter (l : List Char) : List Char :=
  l.filter (fun c => pyIsPrintable c || c == '\n')

/-- Embeds `APIError` (exceptions.py:1-3); the message string is omitted.  Both the
async blank-response `ValueError` and any exception from appending the
assistant message are caught by `except Exception` and re-raised as this. -/
inductive ClientError where
  | apiError
deriving DecidableEq, Repr

/-- Normalization performed by the sync `_generate` on a 200 response body
(client.py:470-476): printable filter, then `_process_response`. -/
def syncNormalize (raw : String) : String :=
  processResponse ⟨printableFilter raw.data⟩

/-- The response-processing step of the sync `_generate` (client.py:469-484):
normalize, append the assistant message, return the text.  There is no
blank-text check on this path; only an exception from `add_message` reaches
the `except Exception` handler, which re-raises `APIError`. -/
def syncResponseStep (db : DictDatabase) (c : Chat) (raw : String) :
    Except ClientError (String × Chat × DictDatabase) :=
  let t := syncNormalize raw
  match addMessageDb db c t "assistant" none with
  | .error _ => .error .apiError
  | .ok (c', db') => .ok (t, c', db')

/-- The response-processing step of `_generate_async` (client.py:531-548):
strip markers and the promotional line, raise
`ValueError("Empty response from API")` when the stripped text is blank
(caught by `except Exception` and re-raised as `APIError`), else append and
return the `strip()`ed text. -/
def asyncResponseStep (db : DictDatabase) (c : Chat) (raw : String) :
    Except ClientError (String × Chat × DictDatabase) :=
  let t := stripPromoAsync (stripMarkers raw.data)
  if (pyStrip t).isEmpty then .error .apiError
  else
    match addMessageDb db c ⟨pyStrip t⟩ "assistant" none with
    | .error _ => .error .apiError
    | .ok (c', db') => .ok (⟨pyStrip t⟩, c', db')

/-! ### client.py: validation token fetch -/

/-- Result of the network interaction inside `_fetch_validated`
(client.py:332-359), abstracting the aiohttp calls: either some script yielded
a token matching the key pattern, or the page load returned non-200, or no
script contained a matching token, or an exception was raised. -/
inductive FetchOutcome where
  | success (v : String)
  | pageLoadFail
  | noTokenFound
  | exn
deriving DecidableEq, Repr

/-- All non-success outcomes. -/
def FetchOutcome.isFailure : FetchOutcome → Bool
  | .success _ => false
  | _ => true

/-- Embeds `AIClient._fetch_validated` (client.py:322-361) over the in-memory cache
`_last_validated_value`: a truthy cached value short-circuits; on success the
fetched token is returned and cached; every failure path falls through to
`return self._last_validated_value`.  Returns (returned value, new cache);
the on-disk cache mirror (client.py:309-320) is a best-effort side effect with
no bearing on the returned value. -/
def fetchValidated (cache : Option String) (o : FetchOutcome) :
    Option String × Option String :=
  if pyTruthy cache then (cache, cache)
  else
    match o with
    | .success v => (some v, some v)
    | _ => (cache, cache)

/-! ### client.py: payload assembly -/

/-- The JSON body built by `_prepare_payload` (client.py:389-411).  The two
float constants `playgroundTopP = 0.9` and `playgroundTemperature = 0.5` are
modelled as rationals; `agentMode` holds the agent whose `to_dict` is embedded
(`none` for the literal `{}`), and `trendingAgentMode` is always `{}`. -/
structure Payload where
  messages : List MessageDict
  id : String
  previewToken : Option String
  userId : Option String
  codeModelMode : Bool
  agentMode : Option AgentMode
  isMicMode : Bool
  userSystemPrompt : Option String
  maxTokens : Nat
  playgroundTopP : ℚ
  playgroundTemperature : ℚ
  isChromeExt : Bool
  githubToken : Option String
  clickedAnswer2 : Bool
  clickedAnswer3 : Bool
  clickedForceWebSearch : Bool
  visitFromDelta : Bool
  mobileClient : Bool
  userSelectedModel : Option String
  validated : Option String
deriving DecidableEq, Repr

/-- The payload construction of `_prepare_payload` (client.py:389-416): all
fields are fixed except `messages`, `id`, `agentMode`, `maxTokens` and
`validated`; `userSelectedModel` starts as null and is set to `model.id` only
when there is no image, no agent (`not agent`), and `model != BLACKBOX`
(client.py:413-416). -/
def mkPayload (msgs : List Message) (chatId : String) (agent : Option AgentMode)
    (model : Model) (maxTokens : Nat) (image : Option String)
    (validated : Option String) : Payload :=
  let base : Payload :=
    { messages := msgs.map Message.toDict
      id := chatId
      previewToken := none
      userId := none
      codeModelMode := true
      agentMode := agent
      isMicMode := false
      userSystemPrompt := none
      maxTokens := maxTokens
      playgroundTopP := 0.9
      playgroundTemperature := 0.5
      isChromeExt := false
      githubToken := none
      clickedAnswer2 := false
      clickedAnswer3 := false
      clickedForceWebSearch := false
      visitFromDelta := false
      mobileClient := false
      userSelectedModel := none
      validated := validated }
  if image = none ∧ agent = none ∧ model ≠ BLACKBOX then
    { base with userSelectedModel := some model.id }
  else
    base

/-- The fixed language instruction appended to every user message
(client.py:384). -/
def langSuffix : String :=
  "\n\nОтвечай только на том языке, на котором я задал вопрос. Т.е задал на русском - ответил на русском."

/-- Embeds `AIClient._get_chat` (client.py:265-279): with `use_chat_history` disabled
it constructs a fresh `Chat(self.database)` (random uuid modelled by
`freshId`) without registering it; otherwise it resolves `agent.id` or
`"default"` through `get_or_create_chat`. -/
def getChatClient (useHistory : Bool) (freshId : String) (db : DictDatabase)
    (agent : Option AgentMode) : Chat × DictDatabase :=
  if useHistory then
    let chatId := match agent with
      | some a => a.id
      | none => "default"
    get_or_create_chat db chatId
  else
    ({ chat_id := freshId, messages := [] }, db)

/-- Embeds `AIClient._prepare_payload` (client.py:363-425): resolve the chat, append
the user message (with the language suffix and the optional image) through
`Chat.add_message` — whose `save_chat` may raise `DatabaseError` — fetch the
validation token, and build the payload.  The `referer` header update
(client.py:419-423) is a header side effect with no claim about it and is
omitted. -/
def preparePayload (useHistory : Bool) (freshId : String) (db : DictDatabase)
    (message : String) (agent : Option AgentMode) (model : Model)
    (maxTokens : Nat) (image : Option String) (cache : Option String)
    (o : FetchOutcome) :
    Except DBError (Payload × Chat × DictDatabase × Option String) :=
  let p := getChatClient useHistory freshId db agent
  match addMessageDb p.2 p.1 (message ++ langSuffix) "user" image with
  | .error e => .error e
  | .ok (c', db') =>
    let fv := fetchValidated cache o
    .ok (mkPayload (getMessages c') c'.chat_id agent model maxTokens image fv.1,
         c', db', fv.2)

/-! ### Helper lemmas: association lists -/

theorem getk_setk_self (l : List (String × α)) (k : String) (v : α) :
    getk (setk l k v) k = some v := by
  induction l with
  | nil => simp [setk, getk]
  | cons h t ih =>
    obtain ⟨k', v'⟩ := h
    by_cases hk : k' = k
    · simp [setk, hk, getk]
    · simp [setk, hk, getk, ih]

theorem getk_mem {l : List (String × α)} {k : String} {v : α}
    (h : getk l k = some v) : (k, v) ∈ l := by
  induction l with
  | nil => simp [getk] at h
  | cons hd t ih =>
    obtain ⟨k', v'⟩ := hd
    by_cases hk : k' = k
    · simp [getk, hk] at h
      simp [hk, h]
    · simp [getk, hk] at h
      exact List.mem_cons_of_mem _ (ih h)

theorem delk_of_absent {l : List (String × α)} {k : String}
    (h : getk l k = none) : delk l k = l := by
  induction l with
  | nil => rfl
  | cons hd t ih =>
    obtain ⟨k', v'⟩ := hd
    by_cases hk : k' = k
    · simp [getk, hk] at h
    · simp only [getk, if_neg hk] at h
      have hp : (decide (((k', v') : String × α).1 ≠ k)) = true := by simp [hk]
      simp only [delk, List.filter_cons, hp, if_true]
      exact congrArg (List.cons (k', v')) (ih h)

theorem delk_idem (l : List (String × α)) (k : String) :
    delk (delk l k) k = delk l k := by
  induction l with
  | nil => rfl
  | cons hd t ih =>
    obtain ⟨k', v'⟩ := hd
    by_cases hk : k' = k
    · have hp : (decide (((k', v') : String × α).1 ≠ k)) = false := by simp [hk]
      simp only [delk, List.filter_cons, hp] at ih ⊢
      exact ih
    · have hp : (decide (((k', v') : String × α).1 ≠ k)) = true := by simp [hk]
      simp only [delk, List.filter_cons, hp, if_true] at ih ⊢
      exact congrArg (List.cons (k', v')) ih

theorem wf_lookup {db : DictDatabase} {id : String} {c : Chat}
    (hwf : wfDb db = true) (hc : getk db.chats id = some c) :
    c.chat_id = id ∧ (getk db.metadata id).isSome = true := by
  have hmem : (id, c) ∈ db.chats := getk_mem hc
  have h := List.all_eq_true.mp hwf (id, c) hmem
  simp only [Bool.and_eq_true, beq_iff_eq] at h
  exact h

/-! ### Helper lemmas: the bounded deque -/

theorem truncMax_length_le (l : List α) : (truncMax l).length ≤ MAX_MESSAGES := by
  simp only [truncMax, List.length_drop]
  omega

theorem dequeAppend_eq (l : List Message) (m : Message) :
    dequeAppend l m = truncMax (l ++ [m]) := by
  simp only [dequeAppend, truncMax]
  split
  · rfl
  · rename_i hle
    have : (l ++ [m]).length - MAX_MESSAGES = 0 := by omega
    rw [this, List.drop_zero]

theorem truncMax_append (a b : List α) :
    truncMax (truncMax a ++ b) = truncMax (a ++ b) := by
  simp only [truncMax, List.drop_append_eq_append_drop, List.length_append,
    List.length_drop, List.drop_drop]
  congr 1
  · congr 1
    omega
  · congr 1
    omega

theorem truncMax_append_of_long (x y : List α) (h : MAX_MESSAGES ≤ y.length) :
    truncMax (x ++ y) = truncMax y := by
  simp only [truncMax, List.drop_append_eq_append_drop, List.length_append]
  have hx : x.drop (x.length + y.length - MAX_MESSAGES) = [] :=
    List.drop_eq_nil_of_le (by omega)
  rw [hx, List.nil_append]
  congr 1
  omega

theorem foldl_dequeAppend_of_le (l : List Message) (init : List Message)
    (h : init.length ≤ MAX_MESSAGES) :
    List.foldl dequeAppend init l = truncMax (init ++ l) := by
  induction l generalizing init with
  | nil =>
    simp only [List.foldl_nil, List.append_nil, truncMax]
    have : init.length - MAX_MESSAGES = 0 := by omega
    rw [this, List.drop_zero]
  | cons m rest ih =>
    rw [List.foldl_cons, dequeAppend_eq,
      ih (truncMax (init ++ [m])) (truncMax_length_le _), truncMax_append,
      List.append_assoc]
    rfl

theorem foldl_dequeAppend_ne_nil (l : List Message) (init : List Message)
    (h : l ≠ []) :
    List.foldl dequeAppend init l = truncMax (init ++ l) := by
  cases l with
  | nil => exact absurd rfl h
  | cons m rest =>
    rw [List.foldl_cons, dequeAppend_eq,
      foldl_dequeAppend_of_le rest _ (truncMax_length_le _), truncMax_append,
      List.append_assoc]
    rfl

theorem dequeAppend_snoc (l : List Message) (m : Message) :
    dequeAppend l m = l.drop (l.length + 1 - MAX_MESSAGES) ++ [m] := by
  rw [dequeAppend_eq]
  simp only [truncMax, List.drop_append_eq_append_drop, List.length_append,
    List.length_singleton]
  have h1 : l.length + 1 - MAX_MESSAGES - l.length = 0 := by
    simp only [MAX_MESSAGES]
    omega
  rw [h1, List.drop_zero]

/-! ### Helper lemmas: chat persistence -/

theorem chatAppend_chat_id (c : Chat) (content role : String) (image : Option String) :
    (chatAppend c content role image).chat_id = c.chat_id := rfl

theorem save_chat_of_registered {db : DictDatabase} {c : Chat} {m : ChatMeta}
    (h : getk db.metadata c.chat_id = some m) :
    save_chat db c = .ok { chats := setk db.chats c.chat_id c,
                           metadata := setk db.metadata c.chat_id
                             { message_count := (getMessages c).length } } := by
  simp only [save_chat, h]

theorem addMessageDb_of_registered {db : DictDatabase} {c : Chat} {m : ChatMeta}
    (content role : String) (image : Option String)
    (h : getk db.metadata c.chat_id = some m) :
    addMessageDb db c content role image =
      .ok (chatAppend c content role image,
        { chats := setk db.chats c.chat_id (chatAppend c content role image),
          metadata := setk db.metadata c.chat_id
            { message_count := (getMessages (chatAppend c content role image)).length } }) := by
  have h' : getk db.metadata (chatAppend c content role image).chat_id = some m := h
  simp only [addMessageDb, save_chat_of_registered h', Except.map]
  rfl

theorem addMessageDb_of_unregistered {db : DictDatabase} {c : Chat}
    (content role : String) (image : Option String)
    (h : getk db.metadata c.chat_id = none) :
    addMessageDb db c content role image = .error .databaseError := by
  have h' : getk db.metadata (chatAppend c content role image).chat_id = none := h
  simp only [addMessageDb, save_chat, h', Except.map]

theorem addAll_ok (ms : List (String × String)) (db : DictDatabase) (c : Chat)
    (h : (getk db.metadata c.chat_id).isSome = true) :
    ∃ db', addAll db c ms =
        .ok ({ chat_id := c.chat_id,
               messages := List.foldl dequeAppend c.messages (ms.map mkMsg) }, db') ∧
      (ms = [] → db' = db) ∧
      (ms ≠ [] → getk db'.metadata c.chat_id =
        some { message_count :=
          (List.foldl dequeAppend c.messages (ms.map mkMsg)).length }) := by
  induction ms generalizing db c with
  | nil =>
    exact ⟨db, by simp [addAll], fun _ => rfl, fun hne => absurd rfl hne⟩
  | cons p rest ih =>
    obtain ⟨m0, hm0⟩ := Option.isSome_iff_exists.mp h
    set c1 := chatAppend c p.1 p.2 none with hc1
    set db1 : DictDatabase :=
      { chats := setk db.chats c.chat_id c1,
        metadata := setk db.metadata c.chat_id
          { message_count := (getMessages c1).length } } with hdb1
    have hid1 : c1.chat_id = c.chat_id := rfl
    have hmd1 : getk db1.metadata c1.chat_id =
        some { message_count := (getMessages c1).length } := by
      rw [hid1]
      exact getk_setk_self _ _ _
    obtain ⟨db', h1, h2, h3⟩ := ih db1 c1 (by rw [hmd1]; rfl)
    have hstep : addAll db c (p :: rest) = addAll db1 c1 rest := by
      simp only [addAll, addMessageDb_of_registered p.1 p.2 none hm0]
    have hmsgs : List.foldl dequeAppend c1.messages (rest.map mkMsg) =
        List.foldl dequeAppend c.messages ((p :: rest).map mkMsg) := by
      simp only [List.map_cons, List.foldl_cons]
      rfl
    refine ⟨db', ?_, fun hne => absurd hne (by simp), fun _ => ?_⟩
    · rw [hstep, h1, hmsgs, hid1]
    · by_cases hr : rest = []
      · subst hr
        rw [h2 rfl, hdb1]
        rw [show DictDatabase.metadata
            { chats := setk db.chats c.chat_id c1,
              metadata := setk db.metadata c.chat_id
                { message_count := (getMessages c1).length } } =
            setk db.metadata c.chat_id
              { message_count := (getMessages c1).length } from rfl,
          getk_setk_self]
        rfl
      · have h3' := h3 hr
        rw [hid1] at h3'
        rw [h3', hmsgs]

theorem goc_of_found {db : DictDatabase} {id : String} {c : Chat}
    (h : getk db.chats id = some c) : get_or_create_chat db id = (c, db) := by
  simp only [get_or_create_chat, h]

theorem goc_spec (db : DictDatabase) (id : String) (hwf : wfDb db = true) :
    (get_or_create_chat db id).1.chat_id = id ∧
    getk (get_or_create_chat db id).2.chats id = some (get_or_create_chat db id).1 ∧
    (getk (get_or_create_chat db id).2.metadata id).isSome = true := by
  cases hc : getk db.chats id with
  | some c =>
    have hw := wf_lookup hwf hc
    simp only [get_or_create_chat, hc]
    exact ⟨hw.1, trivial, hw.2⟩
  | none =>
    simp only [get_or_create_chat, hc]
    refine ⟨trivial, getk_setk_self _ _ _, ?_⟩
    rw [getk_setk_self]
    rfl

theorem mkPayload_validated (msgs : List Message) (chatId : String)
    (agent : Option AgentMode) (model : Model) (maxTokens : Nat)
    (image validated : Option String) :
    (mkPayload msgs chatId agent model maxTokens image validated).validated = validated := by
  simp only [mkPayload]
  split <;> rfl

/-! ### Claim theorems -/

/-- C1: for every Chat and every sequence of `add_message` calls on it, after
N successful appends with N > 25, `get_messages` returns exactly the 25 most
recently appended messages in insertion order (oldest of the retained 25
first), no append errors (in particular not the 26th, which silently evicts
the oldest), and the stored message count — both the deque length and the
`message_count` metadata written by `save_chat` — equals 25. -/
theorem chat_history_bounded_25 (c : Chat) (db : DictDatabase)
    (ms : List (String × String)) (h1 : MAX_MESSAGES < ms.length)
    (h2 : (getk db.metadata c.chat_id).isSome = true) :
    ∃ c' db', addAll db c ms = .ok (c', db') ∧
      getMessages c' = (ms.map mkMsg).drop (ms.length - MAX_MESSAGES) ∧
      (getMessages c').length = MAX_MESSAGES ∧
      getk db'.metadata c.chat_id = some { message_count := MAX_MESSAGES } := by
  obtain ⟨db', hall, _, h3⟩ := addAll_ok ms db c h2
  have hne : ms ≠ [] := by
    intro hnil
    subst hnil
    simp [MAX_MESSAGES] at h1
  have hmapne : ms.map mkMsg ≠ [] := by simpa using hne
  have hlenm : MAX_MESSAGES ≤ (ms.map mkMsg).length := by
    rw [List.length_map]
    omega
  have hmsg : List.foldl dequeAppend c.messages (ms.map mkMsg) =
      (ms.map mkMsg).drop (ms.length - MAX_MESSAGES) := by
    rw [foldl_dequeAppend_ne_nil _ _ hmapne, truncMax_append_of_long _ _ hlenm]
    simp only [truncMax, List.length_map]
  have hlen25 : ((ms.map mkMsg).drop (ms.length - MAX_MESSAGES)).length = MAX_MESSAGES := by
    rw [List.length_drop, List.length_map]
    simp only [MAX_MESSAGES] at h1 ⊢
    omega
  refine ⟨_, db', hall, ?_, ?_, ?_⟩
  · simpa only [getMessages] using hmsg
  · simp only [getMessages]
    rw [hmsg, hlen25]
  · rw [h3 hne, hmsg, hlen25]

/-- Witness for C1 at 26 appends on a freshly registered chat. -/
theorem chat_history_bounded_25_witness :
    ∃ c' db',
      addAll ⟨[("a", ⟨"a", []⟩)], [("a", ⟨0⟩)]⟩ ⟨"a", []⟩
          (List.replicate 26 ("m", "user")) = .ok (c', db') ∧
      getMessages c' = ((List.replicate 26 ("m", "user")).map mkMsg).drop
        ((List.replicate 26 ("m", "user")).length - MAX_MESSAGES) ∧
      (getMessages c').length = MAX_MESSAGES ∧
      getk db'.metadata (Chat.chat_id ⟨"a", []⟩) =
        some { message_count := MAX_MESSAGES } :=
  chat_history_bounded_25 ⟨"a", []⟩ ⟨[("a", ⟨"a", []⟩)], [("a", ⟨0⟩)]⟩
    (List.replicate 26 ("m", "user")) (by decide) (by decide)

/-- C2 counterexample: `add_message("", "user")` and `add_message("hi", "bot")`
on a registered chat both succeed and append the message — the code performs
no argument validation, contradicting the claimed `InvalidArgument` failure. -/
theorem add_message_no_validation_counterexample :
    addMessageDb ⟨[("d", ⟨"d", []⟩)], [("d", ⟨0⟩)]⟩ ⟨"d", []⟩ "" "user" none =
      .ok (⟨"d", [⟨"", "user", none⟩]⟩,
           ⟨[("d", ⟨"d", [⟨"", "user", none⟩]⟩)], [("d", ⟨1⟩)]⟩) ∧
    addMessageDb ⟨[("d", ⟨"d", []⟩)], [("d", ⟨0⟩)]⟩ ⟨"d", []⟩ "hi" "bot" none =
      .ok (⟨"d", [⟨"hi", "bot", none⟩]⟩,
           ⟨[("d", ⟨"d", [⟨"hi", "bot", none⟩]⟩)], [("d", ⟨1⟩)]⟩) :=
  ⟨rfl, rfl⟩

/-- C2 amended: `Chat.add_message` performs no validation of `content` or
`role`; for every content (including empty or whitespace-only) and every role
(including values outside user/assistant), the call on a registered chat
succeeds and the message is appended at the end of the (bounded) deque. -/
theorem add_message_no_validation (db : DictDatabase) (c : Chat)
    (content role : String) (image : Option String)
    (h : (getk db.metadata c.chat_id).isSome = true) :
    ∃ db', addMessageDb db c content role image =
        .ok (chatAppend c content role image, db') ∧
      (chatAppend c content role image).messages =
        c.messages.drop (c.messages.length + 1 - MAX_MESSAGES) ++
          [{ content := content, role := role, image := image }] := by
  obtain ⟨m0, hm0⟩ := Option.isSome_iff_exists.mp h
  exact ⟨_, addMessageDb_of_registered content role image hm0, dequeAppend_snoc _ _⟩

/-- Witness for the C2 amended theorem at empty content. -/
theorem add_message_no_validation_witness :
    ∃ db', addMessageDb ⟨[("d", ⟨"d", []⟩)], [("d", ⟨0⟩)]⟩ ⟨"d", []⟩ "" "user" none =
        .ok (chatAppend ⟨"d", []⟩ "" "user" none, db') ∧
      (chatAppend ⟨"d", []⟩ "" "user" none).messages =
        (Chat.messages ⟨"d", []⟩).drop
          ((Chat.messages ⟨"d", []⟩).length + 1 - MAX_MESSAGES) ++
          [{ content := "", role := "user", image := none }] :=
  add_message_no_validation ⟨[("d", ⟨"d", []⟩)], [("d", ⟨0⟩)]⟩ ⟨"d", []⟩
    "" "user" none (by decide)

/-- C3 (code bug): the sync/async variants are *not* identical.  The class
body's later duplicate `add_message_async` (models.py:186) shadows the
image-capable definition (models.py:155), so a call passing an image raises
`TypeError`, while the sync `add_message` — and the shadowed first async
definition — append the message with its image. -/
theorem async_duplicate_shadowing :
    addMessageAsyncCall ⟨[("d", ⟨"d", []⟩)], [("d", ⟨0⟩)]⟩ ⟨"d", []⟩
        "hi" "user" (some "IMG") = .error .typeError ∧
    addMessageDb ⟨[("d", ⟨"d", []⟩)], [("d", ⟨0⟩)]⟩ ⟨"d", []⟩
        "hi" "user" (some "IMG") =
      .ok (⟨"d", [⟨"hi", "user", some "IMG"⟩]⟩,
           ⟨[("d", ⟨"d", [⟨"hi", "user", some "IMG"⟩]⟩)], [("d", ⟨1⟩)]⟩) ∧
    addMessageAsyncFirst ⟨[("d", ⟨"d", []⟩)], [("d", ⟨0⟩)]⟩ ⟨"d", []⟩
        "hi" "user" (some "IMG") =
      addMessageDb ⟨[("d", ⟨"d", []⟩)], [("d", ⟨0⟩)]⟩ ⟨"d", []⟩
        "hi" "user" (some "IMG") :=
  ⟨rfl, rfl, rfl⟩

/-- C4: `userSelectedModel` follows the tri-condition precedence rule of
`_prepare_payload` (client.py:413-416): image present → null; agent present →
null; model equal to the default `BLACKBOX` → null; otherwise `model.id`. -/
theorem userSelectedModel_tri_condition (msgs : List Message) (chatId : String)
    (agent : Option AgentMode) (model : Model) (maxTokens : Nat)
    (image validated : Option String) :
    (image ≠ none →
      (mkPayload msgs chatId agent model maxTokens image validated).userSelectedModel = none) ∧
    (agent ≠ none →
      (mkPayload msgs chatId agent model maxTokens image validated).userSelectedModel = none) ∧
    (model = BLACKBOX →
      (mkPayload msgs chatId agent model maxTokens image validated).userSelectedModel = none) ∧
    (image = none → agent = none → model ≠ BLACKBOX →
      (mkPayload msgs chatId agent model maxTokens image validated).userSelectedModel =
        some model.id) := by
  refine ⟨?_, ?_, ?_, ?_⟩
  · intro h
    simp only [mkPayload]
    rw [if_neg (fun hand => h hand.1)]
  · intro h
    simp only [mkPayload]
    rw [if_neg (fun hand => h hand.2.1)]
  · intro h
    simp only [mkPayload]
    rw [if_neg (fun hand => hand.2.2 h)]
  · intro h1 h2 h3
    simp only [mkPayload]
    rw [if_pos ⟨h1, h2, h3⟩]

/-- Witness for C4 at each of the four branches. -/
theorem userSelectedModel_tri_condition_witness :
    (mkPayload [] "c" none CLAUDE 10 (some "i") none).userSelectedModel = none ∧
    (mkPayload [] "c" (some ⟨true, "ag", "Agent", none⟩) CLAUDE 10 none none).userSelectedModel = none ∧
    (mkPayload [] "c" none BLACKBOX 10 none none).userSelectedModel = none ∧
    (mkPayload [] "c" none CLAUDE 10 none none).userSelectedModel = some CLAUDE.id :=
  ⟨(userSelectedModel_tri_condition [] "c" none CLAUDE 10 (some "i") none).1 (by decide),
   (userSelectedModel_tri_condition [] "c" (some ⟨true, "ag", "Agent", none⟩) CLAUDE 10
      none none).2.1 (by decide),
   (userSelectedModel_tri_condition [] "c" none BLACKBOX 10 none none).2.2.1 rfl,
   (userSelectedModel_tri_condition [] "c" none CLAUDE 10 none none).2.2.2 rfl rfl
      (by decide)⟩

/-- C5: `_process_response` deletes every non-greedy `$~~~$ ... $~~~$` marker
pair (spanning newlines) and the fixed promotional line, concatenating the
remainder; in particular the spec's example normalizes to exactly
`"keep  tail"`, a double pair is fully removed, and the promotional line with
its optional second newline is removed. -/
theorem response_normalizer_examples :
    processResponse "keep $~~~$ link block\nmore$~~~$ tail" = "keep  tail" ∧
    processResponse "a$~~~$x$~~~$b$~~~$y$~~~$c" = "abc" ∧
    processResponse
        "head\nGenerated by BLACKBOX.AI, try unlimited chat https://www.blackbox.ai\n\ntail" =
      "head\ntail" :=
  ⟨rfl, rfl, rfl⟩

/-- C6 counterexample: the synchronous `_generate` has no blank-text check —
a response that normalizes to blank is appended and returned as `""`, not
turned into an error. -/
theorem sync_blank_returned_counterexample :
    syncResponseStep ⟨[("d", ⟨"d", []⟩)], [("d", ⟨0⟩)]⟩ ⟨"d", []⟩ "$~~~$x$~~~$" =
      .ok ("", ⟨"d", [⟨"", "assistant", none⟩]⟩,
           ⟨[("d", ⟨"d", [⟨"", "assistant", none⟩]⟩)], [("d", ⟨1⟩)]⟩) :=
  rfl

/-- C6 amended: only the asynchronous generate path fails on blank-after-
normalization text — `_generate_async` raises `ValueError("Empty response from
API")`, caught and re-raised as `APIError` (there is no `EmptyResponse` type);
the synchronous path performs no blank check and returns the normalized text
(blank included) after appending it. -/
theorem blank_response_async_only (db : DictDatabase) (c : Chat) (raw : String)
    (hblank : (pyStrip (stripPromoAsync (stripMarkers raw.data))).isEmpty = true)
    (hreg : (getk db.metadata c.chat_id).isSome = true) :
    asyncResponseStep db c raw = .error .apiError ∧
    ∃ c' db', syncResponseStep db c raw = .ok (syncNormalize raw, c', db') := by
  constructor
  · simp only [asyncResponseStep]
    rw [if_pos hblank]
  · obtain ⟨m0, hm0⟩ := Option.isSome_iff_exists.mp hreg
    refine ⟨chatAppend c (syncNormalize raw) "assistant" none,
      { chats := setk db.chats c.chat_id (chatAppend c (syncNormalize raw) "assistant" none),
        metadata := setk db.metadata c.chat_id
          { message_count :=
            (getMessages (chatAppend c (syncNormalize raw) "assistant" none)).length } }, ?_⟩
    simp only [syncResponseStep,
      addMessageDb_of_registered (syncNormalize raw) "assistant" none hm0]

/-- Witness for the C6 amended theorem on a response that is blank after
marker stripping. -/
theorem blank_response_async_only_witness :
    asyncResponseStep ⟨[("d", ⟨"d", []⟩)], [("d", ⟨0⟩)]⟩ ⟨"d", []⟩ "$~~~$x$~~~$" =
      .error .apiError ∧
    ∃ c' db', syncResponseStep ⟨[("d", ⟨"d", []⟩)], [("d", ⟨0⟩)]⟩ ⟨"d", []⟩ "$~~~$x$~~~$" =
      .ok (syncNormalize "$~~~$x$~~~$", c', db') :=
  blank_response_async_only ⟨[("d", ⟨"d", []⟩)], [("d", ⟨0⟩)]⟩ ⟨"d", []⟩
    "$~~~$x$~~~$" (by decide) (by decide)

/-- C7: `get_or_create_chat` called twice with the same id returns the same
logical Chat — the second call returns the pair registered by the first
without constructing anything, and a message added through the returned chat
(and its implicit save) is visible to a subsequent `get_or_create_chat`. -/
theorem get_or_create_chat_same (db : DictDatabase) (id : String)
    (hwf : wfDb db = true) :
    get_or_create_chat (get_or_create_chat db id).2 id = get_or_create_chat db id ∧
    ∀ (content role : String) (image : Option String) (c' : Chat) (db' : DictDatabase),
      addMessageDb (get_or_create_chat db id).2 (get_or_create_chat db id).1
          content role image = .ok (c', db') →
      get_or_create_chat db' id = (c', db') := by
  obtain ⟨hid, hchats, hmeta⟩ := goc_spec db id hwf
  constructor
  · rw [goc_of_found hchats]
  · intro content role image c' db' hadd
    have hisS : (getk (get_or_create_chat db id).2.metadata
        ((get_or_create_chat db id).1.chat_id)).isSome = true := by
      rw [hid]
      exact hmeta
    obtain ⟨m0, hm0⟩ := Option.isSome_iff_exists.mp hisS
    rw [addMessageDb_of_registered content role image hm0] at hadd
    have hpair := Except.ok.inj hadd
    injection hpair with hc hdb
    subst hc
    subst hdb
    have hkey : getk (setk (get_or_create_chat db id).2.chats
        ((get_or_create_chat db id).1.chat_id)
        (chatAppend (get_or_create_chat db id).1 content role image)) id =
        some (chatAppend (get_or_create_chat db id).1 content role image) := by
      rw [hid]
      exact getk_setk_self _ _ _
    apply goc_of_found
    exact hkey

/-- Witness for C7 on an initially empty backend. -/
theorem get_or_create_chat_same_witness :
    get_or_create_chat (get_or_create_chat ⟨[], []⟩ "a").2 "a" =
      get_or_create_chat ⟨[], []⟩ "a" ∧
    get_or_create_chat ⟨[("a", ⟨"a", [⟨"hi", "user", none⟩]⟩)], [("a", ⟨1⟩)]⟩ "a" =
      (⟨"a", [⟨"hi", "user", none⟩]⟩,
       ⟨[("a", ⟨"a", [⟨"hi", "user", none⟩]⟩)], [("a", ⟨1⟩)]⟩) :=
  ⟨(get_or_create_chat_same ⟨[], []⟩ "a" (by decide)).1,
   (get_or_create_chat_same ⟨[], []⟩ "a" (by decide)).2 "hi" "user" none
     ⟨"a", [⟨"hi", "user", none⟩]⟩
     ⟨[("a", ⟨"a", [⟨"hi", "user", none⟩]⟩)], [("a", ⟨1⟩)]⟩ rfl⟩

/-- C8: `delete_chat` of an absent id does not raise (the operation is total)
and leaves the backend unchanged, and deleting twice equals deleting once. -/
theorem delete_chat_absent_idempotent (db : DictDatabase) (id : String)
    (h1 : getk db.chats id = none) (h2 : getk db.metadata id = none) :
    delete_chat db id = db ∧
    ∀ (d : DictDatabase) (k : String),
      delete_chat (delete_chat d k) k = delete_chat d k := by
  constructor
  · simp only [delete_chat, delk_of_absent h1, delk_of_absent h2]
  · intro d k
    simp only [delete_chat, delk_idem]

/-- Witness for C8: deleting an absent id on a nonempty backend. -/
theorem delete_chat_absent_idempotent_witness :
    delete_chat ⟨[("b", ⟨"b", []⟩)], [("b", ⟨0⟩)]⟩ "a" =
      ⟨[("b", ⟨"b", []⟩)], [("b", ⟨0⟩)]⟩ ∧
    delete_chat (delete_chat ⟨[("b", ⟨"b", []⟩)], [("b", ⟨0⟩)]⟩ "b") "b" =
      delete_chat ⟨[("b", ⟨"b", []⟩)], [("b", ⟨0⟩)]⟩ "b" :=
  ⟨(delete_chat_absent_idempotent ⟨[("b", ⟨"b", []⟩)], [("b", ⟨0⟩)]⟩ "a"
      (by decide) (by decide)).1,
   (delete_chat_absent_idempotent ⟨[("b", ⟨"b", []⟩)], [("b", ⟨0⟩)]⟩ "a"
      (by decide) (by decide)).2 ⟨[("b", ⟨"b", []⟩)], [("b", ⟨0⟩)]⟩ "b"⟩

theorem preparePayload_hist_ok (db : DictDatabase) (msg : String)
    (agent : Option AgentMode) (model : Model) (maxTok : Nat)
    (image cache : Option String) (o : FetchOutcome) (hwf : wfDb db = true) :
    ∃ c' db', preparePayload true "" db msg agent model maxTok image cache o =
      .ok (mkPayload (getMessages c') c'.chat_id agent model maxTok image
             (fetchValidated cache o).1, c', db', (fetchValidated cache o).2) := by
  have hgc : getChatClient true "" db agent =
      get_or_create_chat db (match agent with | some a => a.id | none => "default") := rfl
  set cid := (match agent with | some a => a.id | none => "default") with hcid
  have hspec := goc_spec db cid hwf
  have hisS : (getk (get_or_create_chat db cid).2.metadata
      ((get_or_create_chat db cid).1.chat_id)).isSome = true := by
    rw [hspec.1]
    exact hspec.2.2
  obtain ⟨m0, hm0⟩ := Option.isSome_iff_exists.mp hisS
  refine ⟨chatAppend (get_or_create_chat db cid).1 (msg ++ langSuffix) "user" image,
    { chats := setk (get_or_create_chat db cid).2.chats
        ((get_or_create_chat db cid).1.chat_id)
        (chatAppend (get_or_create_chat db cid).1 (msg ++ langSuffix) "user" image),
      metadata := setk (get_or_create_chat db cid).2.metadata
        ((get_or_create_chat db cid).1.chat_id)
        { message_count := (getMessages
            (chatAppend (get_or_create_chat db cid).1 (msg ++ langSuffix) "user" image)).length } },
    ?_⟩
  simp only [preparePayload, hgc,
    addMessageDb_of_registered (msg ++ langSuffix) "user" image hm0]

/-- C9: when the live token fetch fails (non-200 page, no matching token, or
an exception), `_fetch_validated` returns the cached value — the cached token
when one exists, null when none exists — the pipeline is not aborted, and the
payload's `validated` field carries exactly that value. -/
theorem token_fetch_graceful (cache : Option String) (o : FetchOutcome)
    (db : DictDatabase) (msg : String) (agent : Option AgentMode)
    (model : Model) (maxTok : Nat) (image : Option String)
    (hfail : o.isFailure = true) (hwf : wfDb db = true) :
    (fetchValidated cache o).1 = cache ∧
    ∃ p c' db' nc,
      preparePayload true "" db msg agent model maxTok image cache o =
        .ok (p, c', db', nc) ∧ p.validated = cache := by
  have hfv : (fetchValidated cache o).1 = cache := by
    by_cases ht : pyTruthy cache = true
    · simp only [fetchValidated, if_pos ht]
    · simp only [fetchValidated, if_neg ht]
      cases o with
      | success v => simp [FetchOutcome.isFailure] at hfail
      | pageLoadFail => rfl
      | noTokenFound => rfl
      | exn => rfl
  obtain ⟨c', db', hkey⟩ :=
    preparePayload_hist_ok db msg agent model maxTok image cache o hwf
  refine ⟨hfv, mkPayload (getMessages c') c'.chat_id agent model maxTok image
    (fetchValidated cache o).1, c', db', (fetchValidated cache o).2, hkey, ?_⟩
  rw [mkPayload_validated]
  exact hfv

/-- Witness for C9: a failed fetch with a cached token on an empty backend. -/
theorem token_fetch_graceful_witness :
    (fetchValidated (some "tok") .exn).1 = some "tok" ∧
    ∃ p c' db' nc,
      preparePayload true "" ⟨[], []⟩ "m" none BLACKBOX 10 none (some "tok") .exn =
        .ok (p, c', db', nc) ∧ p.validated = some "tok" :=
  token_fetch_graceful (some "tok") .exn ⟨[], []⟩ "m" none BLACKBOX 10 none
    (by decide) (by decide)

/-- C10: saving a directly constructed `Chat` (one not registered by
`get_or_create_chat`) through `DictDatabase.save_chat` raises `DatabaseError`
— directly, through the implicit save of the chat's first `add_message`, and
through `_prepare_payload` when `use_chat_history` is disabled, since
`save_chat` updates a per-id metadata entry that only `get_or_create_chat`
creates. -/
theorem unregistered_chat_save_fails :
    (∀ (db : DictDatabase) (c : Chat),
      getk db.metadata c.chat_id = none →
      save_chat db c = .error .databaseError) ∧
    (∀ (db : DictDatabase) (c : Chat) (content role : String) (image : Option String),
      getk db.metadata c.chat_id = none →
      addMessageDb db c content role image = .error .databaseError) ∧
    (∀ (db : DictDatabase) (freshId msg : String) (agent : Option AgentMode)
        (model : Model) (maxTok : Nat) (image cache : Option String) (o : FetchOutcome),
      getk db.metadata freshId = none →
      preparePayload false freshId db msg agent model maxTok image cache o =
        .error .databaseError) := by
  refine ⟨?_, ?_, ?_⟩
  · intro db c h
    simp only [save_chat, h]
  · intro db c content role image h
    exact addMessageDb_of_unregistered content role image h
  · intro db freshId msg agent model maxTok image cache o h
    have hgc : getChatClient false freshId db agent = (⟨freshId, []⟩, db) := rfl
    have h' : getk db.metadata (Chat.chat_id ⟨freshId, []⟩) = none := h
    simp only [preparePayload, hgc,
      addMessageDb_of_unregistered (msg ++ langSuffix) "user" image h']

/-- Witness for C10 on an empty backend (no metadata entry), as with a chat
constructed by `Chat(db)` rather than `get_or_create_chat`. -/
theorem unregistered_chat_save_fails_witness :
    save_chat ⟨[], []⟩ ⟨"x", []⟩ = .error .databaseError ∧
    addMessageDb ⟨[], []⟩ ⟨"x", []⟩ "hi" "user" none = .error .databaseError ∧
    preparePayload false "x" ⟨[], []⟩ "m" none BLACKBOX 10 none none .exn =
      .error .databaseError :=
  ⟨unregistered_chat_save_fails.1 ⟨[], []⟩ ⟨"x", []⟩ (by decide),
   unregistered_chat_save_fails.2.1 ⟨[], []⟩ ⟨"x", []⟩ "hi" "user" none (by decide),
   unregistered_chat_save_fails.2.2 ⟨[], []⟩ "x" "m" none BLACKBOX 10 none none .exn
     (by decide)⟩

end BlackboxAPI
